import Mathlib

/-
Verification of the BNB donation backend (app.py): a shallow embedding of
its storage layer, handlers and startup logic, with theorems settling the
specification's claims.

Modelling conventions:
* sqlite REAL amounts are modelled as exact rationals (ℚ).
* timestamps are integer seconds; `datetime.now() - ts` becomes `now - ts`.
  Python's `timedelta` normalisation (`.days`, `.seconds`) uses floor
  division, hence `Int.fdiv` / `Int.fmod`.
* the donations table is a list of rows plus the next AUTOINCREMENT id.
* the external `qrcode` library is an abstract encoder `String → String`
  passed as a parameter (its PNG internals are outside this repository).
-/

/-- One row of the `donations` table (app.py lines 38-46). -/
structure Donation where
  id : Nat
  crypto_type : String
  amount : ℚ
  transaction_hash : String
  timestamp : Int
deriving Repr, DecidableEq

/-- State of the sqlite store: the rows of the `donations` table together
with the next AUTOINCREMENT id. -/
structure DBState where
  donations : List Donation
  nextId : Nat
deriving Repr, DecidableEq

/-- Destination wallet address (app.py line 18). -/
def BSC_ADDRESS : String := "0xd5d16f8A035fc52F4a93890D52Ca58004CF6E9B0"

/-- Chain ID of the BNB Smart Chain (app.py line 20). -/
def BSC_CHAIN_ID : Nat := 56

/-- INSERT INTO donations, under the schema's UNIQUE constraint on
`transaction_hash` (app.py lines 43, 57): if the hash is already present
the statement fails and the table is untouched (sqlite statements are
atomic); otherwise the row is appended with the next AUTOINCREMENT id.
Returns the resulting table state and the statement's outcome. -/
def insertDonation (ct : String) (amount : ℚ) (hash : String) (ts : Int)
    (s : DBState) : DBState × Except String Unit :=
  if s.donations.any (fun d => d.transaction_hash = hash) then
    (s, Except.error "UNIQUE constraint failed: donations.transaction_hash")
  else
    ({ donations := s.donations ++ [⟨s.nextId, ct, amount, hash, ts⟩],
       nextId := s.nextId + 1 }, Except.ok ())

/-- init_database (app.py lines 33-59): CREATE TABLE IF NOT EXISTS is a
no-op on an existing table; if `SELECT COUNT(*)` returns 0 the three
sample donations are inserted (amounts 0.05, 0.02, 0.1 BNB, timestamps
1 hour, 3 hours and 1 day before `now`), otherwise nothing changes.
An insert failure would propagate as a Python exception (`Except.error`). -/
def init_database (now : Int) (s : DBState) : Except String DBState :=
  if s.donations.length = 0 then
    let r1 := insertDonation "BNB" 0.05 "sample_tx_1_bnb" (now - 3600) s
    match r1.2 with
    | Except.error e => Except.error e
    | Except.ok _ =>
      let r2 := insertDonation "BNB" 0.02 "sample_tx_2_bnb" (now - 10800) r1.1
      match r2.2 with
      | Except.error e => Except.error e
      | Except.ok _ =>
        let r3 := insertDonation "BNB" 0.1 "sample_tx_3_bnb" (now - 86400) r2.1
        match r3.2 with
        | Except.error e => Except.error e
        | Except.ok _ => Except.ok r3.1
  else Except.ok s

/-- SELECT COALESCE(SUM(amount), 0) FROM donations (app.py line 113). -/
def total_amount (s : DBState) : ℚ :=
  s.donations.foldl (fun acc d => acc + d.amount) 0

/-- SELECT COUNT(*) FROM donations (app.py line 116). -/
def total_count (s : DBState) : Nat :=
  s.donations.length

/-- Comparator realising ORDER BY timestamp DESC: `a` may come before `b`
when `a`'s timestamp is at least `b`'s. -/
def byTimestampDesc (a b : Donation) : Prop :=
  b.timestamp ≤ a.timestamp

instance : DecidableRel byTimestampDesc :=
  fun a b => inferInstanceAs (Decidable (b.timestamp ≤ a.timestamp))

instance : IsTotal Donation byTimestampDesc :=
  ⟨fun a b => le_total b.timestamp a.timestamp⟩

instance : IsTrans Donation byTimestampDesc :=
  ⟨fun _ _ _ hab hbc => le_trans hbc hab⟩

/-- SELECT amount, timestamp FROM donations ORDER BY timestamp DESC
LIMIT 3 (app.py lines 119-124). -/
def recentRaw (s : DBState) : List Donation :=
  (List.insertionSort byTimestampDesc s.donations).take 3

/-- Relative-age formatting of get_stats (app.py lines 131-142): Python's
`timedelta` splits `now - ts` into `days = (now - ts).fdiv 86400` and
`seconds = (now - ts).fmod 86400`, then buckets on those fields. -/
def timeAgo (now ts : Int) : String :=
  let days := Int.fdiv (now - ts) 86400
  let secs := Int.fmod (now - ts) 86400
  if 0 < days then toString days ++ "d ago"
  else if 3600 ≤ secs then toString (Int.fdiv secs 3600) ++ "h ago"
  else if 60 ≤ secs then toString (Int.fdiv secs 60) ++ "m ago"
  else "just now"

/-- Relative-age buckets as the specification words them, on the total
elapsed time: at least 1 day, else at least 1 hour, else at least 1
minute, else "just now". Stated for comparison with `timeAgo`. -/
def relAgeSpec (elapsed : Int) : String :=
  if 86400 ≤ elapsed then toString (Int.fdiv elapsed 86400) ++ "d ago"
  else if 3600 ≤ elapsed then toString (Int.fdiv elapsed 3600) ++ "h ago"
  else if 60 ≤ elapsed then toString (Int.fdiv elapsed 60) ++ "m ago"
  else "just now"

/-- Amount rendering of get_stats (app.py line 145): the f-string
`:.4f` fixed-point format with 4 decimal digits, followed by " BNB". -/
def formatAmount (q : ℚ) : String :=
  let scaled : Int := round (q * 10000)
  let sign := if scaled < 0 then "-" else ""
  let n := scaled.natAbs
  let fracStr := toString (n % 10000)
  sign ++ toString (n / 10000) ++ "." ++
    String.mk (List.replicate (4 - fracStr.length) '0') ++ fracStr ++ " BNB"

/-- Python round(x, 4) applied to the donation total (app.py line 151). -/
def round4 (q : ℚ) : ℚ :=
  (round (q * 10000) : ℚ) / 10000

/-- One entry of the recent_donations array (app.py lines 144-147). -/
structure RecentEntry where
  amount : String
  time : String
deriving Repr, DecidableEq

/-- Response of the /api/stats handler: HTTP status plus JSON fields
(app.py lines 149-161). -/
structure StatsResponse where
  status : Nat
  total_donations : Nat
  total_amount_bnb : ℚ
  recent_donations : List RecentEntry
deriving Repr, DecidableEq

/-- Success path of get_stats (app.py lines 109-153): totals, count, and
the three most recent donations rendered with amount and relative age. -/
def get_stats_ok (s : DBState) (now : Int) : StatsResponse :=
  { status := 200
    total_donations := total_count s
    total_amount_bnb := round4 (total_amount s)
    recent_donations :=
      (recentRaw s).map (fun d => ⟨formatAmount d.amount, timeAgo now d.timestamp⟩) }

/-- get_stats with its try/except boundary (app.py lines 108, 155-161):
a storage failure is caught and converted to status 500 with the zeroed
payload; a successful read is rendered by `get_stats_ok`. -/
def get_stats (db : Except String DBState) (now : Int) : StatsResponse :=
  match db with
  | Except.error _ =>
    { status := 500, total_donations := 0, total_amount_bnb := 0,
      recent_donations := [] }
  | Except.ok s => get_stats_ok s now

/-- Response of the /api/crypto-info handler (app.py lines 94-100). -/
structure CryptoInfoResponse where
  status : Nat
  address : String
  network : String
  token : String
  qr_code : String
  payment_link : String
deriving Repr, DecidableEq

/-- crypto_info (app.py lines 86-100): builds the EIP-681 payment link
from the fixed address and chain id, encodes it with the QR encoder
`qrEncode` (the external qrcode library, abstracted), and returns the
JSON payload. -/
def crypto_info (qrEncode : String → String) : CryptoInfoResponse :=
  let payment_link := "ethereum:" ++ BSC_ADDRESS ++ "@" ++ toString BSC_CHAIN_ID
  { status := 200
    address := BSC_ADDRESS
    network := "BNB Smart Chain"
    token := "BNB"
    qr_code := "data:image/png;base64," ++ qrEncode payment_link
    payment_link := payment_link }

/-- Index handler (app.py lines 80-83): returns the landing page document
unmodified. -/
def index_page (template : String) : String :=
  template

/-- Outcome of `SELECT 1 FROM donations LIMIT 1` against an existing
database file at startup (app.py lines 172-173): success, an
sqlite3.OperationalError (e.g. the donations table is missing), or a
storage error of any other class (e.g. sqlite3.DatabaseError for a file
that is not a database). -/
inductive CheckResult where
  | ok
  | opError
  | dbError
deriving Repr, DecidableEq

/-- Startup logic of the main block (app.py lines 164-179). `existing` is
`none` when the database file does not exist, otherwise the file's table
state paired with the outcome of the structure check. A missing file is
initialised fresh; an OperationalError deletes the file and re-creates it
(`os.remove` then `init_database` on an empty store, AUTOINCREMENT
restarting at 1); any other error class is not caught by the
`except sqlite3.OperationalError` clause and propagates. -/
def startup (existing : Option (DBState × CheckResult)) (now : Int) :
    Except String DBState :=
  match existing with
  | none => init_database now ⟨[], 1⟩
  | some (s, CheckResult.ok) => Except.ok s
  | some (_, CheckResult.opError) => init_database now ⟨[], 1⟩
  | some (_, CheckResult.dbError) =>
    Except.error "uncaught sqlite3.DatabaseError"

/-! ### Shared helper lemmas -/

/-- Computation of `init_database` on an empty table: the three sample
rows are inserted with consecutive AUTOINCREMENT ids. -/
lemma init_database_empty (now : Int) (n : Nat) :
    init_database now ⟨[], n⟩ = Except.ok
      ⟨[⟨n, "BNB", 0.05, "sample_tx_1_bnb", now - 3600⟩,
        ⟨n + 1, "BNB", 0.02, "sample_tx_2_bnb", now - 10800⟩,
        ⟨n + 2, "BNB", 0.1, "sample_tx_3_bnb", now - 86400⟩], n + 3⟩ :=
  rfl

/-- Folding addition of amounts over a list equals the accumulator plus
the sum of the mapped amounts. -/
lemma foldl_amount (l : List Donation) (acc : ℚ) :
    l.foldl (fun a d => a + d.amount) acc = acc + (l.map (fun d => d.amount)).sum := by
  induction l generalizing acc with
  | nil => simp
  | cons d l ih => simp [ih, add_assoc]

/-! ### Claims -/

/-- C1: every recent donation rendered by the stats handler carries the
relative age `timeAgo now timestamp`, and for a timestamp not in the
future `timeAgo` realises exactly the specified buckets on the elapsed
time (at least 1 day → "Nd ago", else at least 1 hour → "Nh ago", else
at least 1 minute → "Nm ago", else "just now"); in particular 90 minutes
renders as "1h ago", 30 seconds as "just now", 25 hours as "1d ago". -/
theorem c1_relative_age_buckets :
    (∀ (s : DBState) (now : Int),
      (get_stats_ok s now).recent_donations =
        (recentRaw s).map (fun d => ⟨formatAmount d.amount, timeAgo now d.timestamp⟩)) ∧
    (∀ now ts : Int, 0 ≤ now - ts → timeAgo now ts = relAgeSpec (now - ts)) ∧
    timeAgo 5400 0 = "1h ago" ∧
    timeAgo 30 0 = "just now" ∧
    timeAgo 90000 0 = "1d ago" := by
  refine ⟨fun s now => rfl, fun now ts h => ?_, by decide, by decide, by decide⟩
  simp only [timeAgo, relAgeSpec]
  rw [Int.fmod_eq_emod _ (by norm_num : (0:Int) ≤ 86400),
      Int.fdiv_eq_ediv _ (by norm_num : (0:Int) ≤ 86400)]
  by_cases h1 : 86400 ≤ now - ts
  · rw [if_pos (show 0 < (now - ts) / 86400 by omega), if_pos h1]
  · have hmod : (now - ts) % 86400 = now - ts := by omega
    rw [if_neg (show ¬ 0 < (now - ts) / 86400 by omega), if_neg h1, hmod]

/-- C1 witness: the bucket equivalence applied at the concrete elapsed
time of 90 minutes. -/
theorem c1_relative_age_buckets_witness :
    (0 : Int) ≤ 5400 - 0 ∧ timeAgo 5400 0 = relAgeSpec (5400 - 0) :=
  ⟨by decide, c1_relative_age_buckets.2.1 5400 0 (by decide)⟩

/-- Storage state with two donations sharing one timestamp; possible
since only `transaction_hash` is unique. -/
def dupTimestampState : DBState :=
  ⟨[⟨1, "BNB", 0.1, "tx_a", 500⟩, ⟨2, "BNB", 0.2, "tx_b", 500⟩], 3⟩

/-- C2 counterexample: with two equal-timestamp rows the recent list
produced by ORDER BY timestamp DESC LIMIT 3 is not strictly descending,
so the claim's "ordered strictly by descending timestamp" fails. -/
theorem c2_strict_order_counterexample :
    ¬ List.Pairwise (fun a b : Donation => b.timestamp < a.timestamp)
      (recentRaw dupTimestampState) := by
  decide

/-- C2 (amended): the recent list returned by the stats handler has
length `min 3 total` and is ordered by non-increasing (descending, ties
allowed) timestamp. -/
theorem c2_recent_length_and_descending :
    ∀ (s : DBState) (now : Int),
      (get_stats_ok s now).recent_donations.length = min 3 s.donations.length ∧
      List.Pairwise byTimestampDesc (recentRaw s) := by
  intro s now
  constructor
  · simp [get_stats_ok, recentRaw, List.length_take, List.length_insertionSort]
  · exact List.Pairwise.sublist (List.take_sublist 3 _)
      (List.sorted_insertionSort byTimestampDesc s.donations)

/-- C3: a storage failure inside the stats handler is caught and turned
into HTTP 500 with total_donations = 0, total_amount_bnb = 0 and
recent_donations = []; no fault propagates. -/
theorem c3_storage_failure_degraded :
    ∀ (e : String) (now : Int),
      get_stats (Except.error e) now =
        { status := 500, total_donations := 0, total_amount_bnb := 0,
          recent_donations := [] } :=
  fun _ _ => rfl

/-- C4: the crypto-info handler always returns the payment link
"ethereum:0xd5d16f8A035fc52F4a93890D52Ca58004CF6E9B0@56" built from the
fixed address and chain id, together with the address, network name,
token symbol, and the QR image of that link as a PNG data URI. -/
theorem c4_crypto_info_payload :
    ∀ qrEncode : String → String,
      (crypto_info qrEncode).payment_link =
        "ethereum:0xd5d16f8A035fc52F4a93890D52Ca58004CF6E9B0@56" ∧
      (crypto_info qrEncode).address = BSC_ADDRESS ∧
      (crypto_info qrEncode).network = "BNB Smart Chain" ∧
      (crypto_info qrEncode).token = "BNB" ∧
      (crypto_info qrEncode).qr_code =
        "data:image/png;base64," ++ qrEncode (crypto_info qrEncode).payment_link ∧
      (crypto_info qrEncode).status = 200 := by
  intro q
  exact ⟨rfl, rfl, rfl, rfl, rfl, rfl⟩

/-- C5: init_database on an empty store inserts exactly 3 sample records
with timestamps 1 hour, 3 hours and 1 day in the past, and running it
again on the resulting store succeeds and changes nothing (so the record
count is unchanged): idempotent and safe on an existing table. -/
theorem c5_init_seeds_and_idempotent :
    ∀ (now now2 : Int) (n : Nat),
      ∃ s2 : DBState,
        init_database now ⟨[], n⟩ = Except.ok s2 ∧
        s2.donations.length = 3 ∧
        s2.donations.map (fun d => d.timestamp) =
          [now - 3600, now - 10800, now - 86400] ∧
        init_database now2 s2 = Except.ok s2 := by
  intro now now2 n
  exact ⟨_, init_database_empty now n, rfl, rfl, rfl⟩

/-- C6: inserting a record whose transaction_hash already occurs in the
table fails with the UNIQUE-constraint error and returns the table
unchanged (atomic failure). -/
theorem c6_duplicate_hash_insert_fails :
    ∀ (s : DBState) (ct : String) (amount : ℚ) (hash : String) (ts : Int),
      (∃ d ∈ s.donations, d.transaction_hash = hash) →
      insertDonation ct amount hash ts s =
        (s, Except.error "UNIQUE constraint failed: donations.transaction_hash") := by
  intro s ct amount hash ts h
  have hany : s.donations.any (fun d => d.transaction_hash = hash) = true := by
    rcases h with ⟨d, hd, hh⟩
    exact List.any_eq_true.mpr ⟨d, hd, by simp [hh]⟩
  simp [insertDonation, hany]

/-- One-row table used to exercise the duplicate-hash rejection. -/
def dupWitnessState : DBState := ⟨[⟨1, "BNB", 0.1, "tx_a", 100⟩], 2⟩

/-- C6 witness: re-inserting hash "tx_a" into a table already holding it
fails and leaves the table as it was. -/
theorem c6_duplicate_hash_insert_fails_witness :
    (∃ d ∈ dupWitnessState.donations, d.transaction_hash = "tx_a") ∧
    insertDonation "BNB" 0.3 "tx_a" 200 dupWitnessState =
      (dupWitnessState,
       Except.error "UNIQUE constraint failed: donations.transaction_hash") := by
  have hex : ∃ d ∈ dupWitnessState.donations, d.transaction_hash = "tx_a" := by
    refine ⟨⟨1, "BNB", 0.1, "tx_a", 100⟩, ?_, rfl⟩
    simp [dupWitnessState]
  exact ⟨hex, c6_duplicate_hash_insert_fails dupWitnessState "BNB" 0.3 "tx_a" 200 hex⟩

/-- C7: the total computed by the stats handler is 0 on an empty table,
equals the sum of amount over all records in general, and on a freshly
seeded table equals exactly 0.05 + 0.02 + 0.1. -/
theorem c7_total_amount_sum :
    (∀ n : Nat, total_amount ⟨[], n⟩ = 0) ∧
    (∀ s : DBState, total_amount s = (s.donations.map (fun d => d.amount)).sum) ∧
    (∀ (now : Int) (n : Nat) (s2 : DBState),
      init_database now ⟨[], n⟩ = Except.ok s2 →
      total_amount s2 = 0.05 + 0.02 + 0.1) := by
  refine ⟨fun n => rfl, fun s => ?_, fun now n s2 h => ?_⟩
  · simpa using foldl_amount s.donations 0
  · rw [init_database_empty now n] at h
    injection h with h2
    subst h2
    norm_num [total_amount]

/-- Table produced by seeding an empty store at time 0. -/
def seededExample : DBState :=
  ⟨[⟨1, "BNB", 0.05, "sample_tx_1_bnb", -3600⟩,
    ⟨2, "BNB", 0.02, "sample_tx_2_bnb", -10800⟩,
    ⟨3, "BNB", 0.1, "sample_tx_3_bnb", -86400⟩], 4⟩

/-- C7 witness: the seeded-table clause applied to the concrete store
obtained by initialising an empty store at time 0. -/
theorem c7_total_amount_sum_witness :
    init_database 0 ⟨[], 1⟩ = Except.ok seededExample ∧
    total_amount seededExample = 0.05 + 0.02 + 0.1 :=
  ⟨rfl, c7_total_amount_sum.2.2 0 1 seededExample rfl⟩

/-- One-row table whose donation is timestamped at time 0. -/
def clockState : DBState := ⟨[⟨1, "BNB", 0.1, "tx_a", 0⟩], 2⟩

/-- C8 counterexample: the stats handler is not a function of storage
state and configuration alone — with identical storage it renders
"just now" 30 seconds after the donation but "2h ago" 7200 seconds
after it, because it reads the current clock. -/
theorem c8_clock_dependence_counterexample :
    get_stats_ok clockState 30 ≠ get_stats_ok clockState 7200 := by
  intro h
  have h2 := congrArg (fun r => r.recent_donations.map (fun e => e.time)) h
  exact absurd h2 (by decide)

/-- C8 (amended): each handler is a pure, deterministic function of the
storage state, the static configuration, the current clock reading and
the QR encoder: equal inputs yield identical responses. -/
theorem c8_handlers_deterministic :
    ∀ (s1 s2 : DBState) (now1 now2 : Int) (q1 q2 : String → String)
      (t1 t2 : String),
      s1 = s2 → now1 = now2 → (∀ x, q1 x = q2 x) → t1 = t2 →
      get_stats_ok s1 now1 = get_stats_ok s2 now2 ∧
      crypto_info q1 = crypto_info q2 ∧
      index_page t1 = index_page t2 := by
  intro s1 s2 now1 now2 q1 q2 t1 t2 hs hn hq ht
  subst hs; subst hn; subst ht
  refine ⟨rfl, ?_, rfl⟩
  simp [crypto_info, hq]

/-- C8 witness: determinism applied at concrete inputs. -/
theorem c8_handlers_deterministic_witness :
    get_stats_ok ⟨[], 1⟩ 0 = get_stats_ok ⟨[], 1⟩ 0 ∧
    crypto_info id = crypto_info id ∧
    index_page "index.html" = index_page "index.html" :=
  c8_handlers_deterministic ⟨[], 1⟩ ⟨[], 1⟩ 0 0 id id "index.html" "index.html"
    rfl rfl (fun _ => rfl) rfl

/-- C9 counterexample: a storage error of a class other than
sqlite3.OperationalError (e.g. sqlite3.DatabaseError on a corrupt file)
raised while checking an existing store is not caught by the
`except sqlite3.OperationalError` clause: startup propagates it instead
of deleting and re-creating the store, so no table exists afterwards. -/
theorem c9_uncaught_error_counterexample :
    (startup (some (⟨[⟨1, "BNB", 0.1, "tx_a", 0⟩], 2⟩, CheckResult.dbError)) 0).isOk
      = false ∧
    startup (some (⟨[⟨1, "BNB", 0.1, "tx_a", 0⟩], 2⟩, CheckResult.dbError)) 0 =
      Except.error "uncaught sqlite3.DatabaseError" :=
  ⟨rfl, rfl⟩

/-- C9 (amended): a missing file, or an sqlite3.OperationalError raised
while checking an existing file, leads to a freshly created and seeded
table (the OperationalError path first deletes the file); a passing
check leaves the store untouched; any storage error of another class
propagates out of startup uncaught. -/
theorem c9_operational_error_recovery :
    (∀ (s : DBState) (now : Int),
      startup (some (s, CheckResult.opError)) now = init_database now ⟨[], 1⟩) ∧
    (∀ now : Int, ∃ s2 : DBState,
      startup none now = Except.ok s2 ∧ s2.donations.length = 3) ∧
    (∀ (s : DBState) (now : Int),
      startup (some (s, CheckResult.opError)) now = startup none now) ∧
    (∀ (s : DBState) (now : Int),
      startup (some (s, CheckResult.ok)) now = Except.ok s) ∧
    (∀ (s : DBState) (now : Int),
      startup (some (s, CheckResult.dbError)) now =
        Except.error "uncaught sqlite3.DatabaseError") := by
  refine ⟨fun s now => rfl, fun now => ?_, fun s now => rfl, fun s now => rfl,
    fun s now => rfl⟩
  exact ⟨_, init_database_empty now 1, rfl⟩

/-- C10: calling init_database on a store whose donations table is
non-empty returns the store byte-for-byte unchanged: no row is inserted,
deleted or modified. -/
theorem c10_init_frame :
    ∀ (s : DBState) (now : Int), s.donations ≠ [] →
      init_database now s = Except.ok s := by
  intro s now h
  have hlen : ¬ s.donations.length = 0 := by
    simpa [List.length_eq_zero] using h
  rw [init_database, if_neg hlen]

/-- C10 witness: the frame property applied to a concrete one-row
store. -/
theorem c10_init_frame_witness :
    dupWitnessState.donations ≠ [] ∧
    init_database 999 dupWitnessState = Except.ok dupWitnessState :=
  ⟨by decide, c10_init_frame dupWitnessState 999 (by decide)⟩
